import Mathlib

/-!
Verification of the baserowdantic client and ORM layer.

This file gives a shallow embedding of the parts of the library that the
specification makes claims about: the HTTP client's pagination aggregation
(`src/baserow/client.py`, `Client.list_table_rows`, `Client.list_all_table_rows`,
`Client.table_row_count`), the response-to-error mapping (`Client._request`),
batch create/delete (`Client.create_rows`, `Client.delete_row`), the global
client singleton (`GlobalClient.configure`), the table layer
(`src/baserow/table.py`: `Table.query`, `Table.__req_client`, `RowLink`,
`TableLinkField`) and select entries (`src/baserow/field.py`: `SelectEntry`).

Remote HTTP interaction is modelled by passing an abstract server function
(request to response); functions that perform requests additionally return the
list of requests they issued, so that frame claims ("no network call") are
statable.  Python `int` is modelled as `Int` (as `Nat` where the value is a
length or page index), `Optional[x]` as `Option`, raised exceptions as
`Except`/error sums.
-/

namespace Baserowdantic

/-! ### Filters (`src/baserow/filter.py`) -/

/-- `FilterMode` enum from `filter.py`. -/
inductive FilterMode where
  | equals | equalsNot | contains | doesNotContain | containWord
  | doesNotContainWord | lengthIsLowerThan | isEmpty | isNotEmpty
deriving DecidableEq

/-- A single filter condition (`filter.py`, class `Condition`): a field
reference (name or integer id), a mode and an optional value. -/
structure Condition where
  field : Int ⊕ String
  mode : FilterMode
  value : Option String
deriving DecidableEq

/-- `Operator` enum from `filter.py`: how conditions combine. -/
inductive Operator where
  | opAnd | opOr
deriving DecidableEq

/-- A filter tree (`filter.py`, class `Filter`): an operator plus the list of
conditions. -/
structure Filter where
  operator : Operator
  conditions : List Condition
deriving DecidableEq

/-! ### Row responses and list-rows requests (`src/baserow/client.py`) -/

/-- `RowResponse` (client.py): the return object of list row API calls. -/
structure RowResponse (α : Type) where
  count : Int
  next : Option String
  previous : Option String
  results : List α

/-- The parameters of one GET list-rows call as assembled by
`Client.list_table_rows` (client.py lines 217-271): table id in the URL, the
query parameters `user_field_names`, `filters`, `order_by`, `page`, `size`
(each of the optional ones present exactly when the argument is not `None`). -/
structure ListRowsRequest where
  tableId : Int
  userFieldNames : Bool
  filter : Option Filter
  orderBy : Option (List String)
  page : Option Int
  size : Option Int
deriving DecidableEq

/-- `Client.list_table_rows`: issues a single list request built from its
arguments against the server and returns (issued requests, parsed response). -/
def listTableRows (srv : ListRowsRequest → RowResponse α) (tableId : Int)
    (userFieldNames : Bool) (filter : Option Filter)
    (orderBy : Option (List String)) (page : Option Int) (size : Option Int) :
    List ListRowsRequest × RowResponse α :=
  let req : ListRowsRequest :=
    ⟨tableId, userFieldNames, filter, orderBy, page, size⟩
  ([req], srv req)

/-- `Client.table_row_count` (client.py lines 337-348): a 1-row probe,
`list_table_rows(table_id, True, filter=filter, size=1)`, returning the
`count` field of the response. -/
def tableRowCount (srv : ListRowsRequest → RowResponse α) (tableId : Int)
    (filter : Option Filter) : List ListRowsRequest × Int :=
  let rsl := listTableRows srv tableId true filter none none (some 1)
  (rsl.1, rsl.2.count)

/-- The request issued by the probe `table_row_count(table_id)` as called from
`list_all_table_rows` (no filter argument, hence `filter=None`, `size=1`). -/
def probeRequest (tableId : Int) : ListRowsRequest :=
  ⟨tableId, true, none, none, none, some 1⟩

/-- The request issued for page `p` by `list_all_table_rows`: caller's filter
and ordering, `page=p`, `size=200`. -/
def pageRequest (tableId : Int) (userFieldNames : Bool) (filter : Option Filter)
    (orderBy : Option (List String)) (p : Nat) : ListRowsRequest :=
  ⟨tableId, userFieldNames, filter, orderBy, some (Int.ofNat p), some 200⟩

/-! ### Concurrent gather (`asyncio.gather` in `list_all_table_rows`)

`list_all_table_rows` creates one task per page (in page order) and joins them
with `asyncio.gather`, whose contract is to return the results in task order
whatever the completion order.  We model the completion order explicitly: the
finished tasks arrive as a list of (task index, response) pairs that is some
permutation of the indexed task results, and `gather` reassembles them by task
index. -/

/-- Association lookup by key (first match wins). -/
def assocLookup [DecidableEq κ] (k : κ) : List (κ × β) → Option β
  | [] => none
  | (k', v) :: rest => if k' = k then some v else assocLookup k rest

/-- Pair each element of a list with its index, starting at `k`. -/
def indexFrom (k : Nat) : List β → List (Nat × β)
  | [] => []
  | r :: rest => (k, r) :: indexFrom (k + 1) rest

/-- Reassemble `n` task results from arbitrarily ordered arrivals, by task
index (the semantics of `asyncio.gather`). -/
def gatherResults (n : Nat) (arrivals : List (Nat × β)) : List β :=
  (List.range n).filterMap (fun i => assocLookup i arrivals)

/-- The merge loop of `list_all_table_rows` (client.py lines 322-335): start
from the first response and extend its `results` with every later response's
`results`; with no responses at all, return the empty `RowResponse`. -/
def mergeResponses : List (RowResponse α) → RowResponse α
  | [] => { count := 0, next := none, previous := none, results := [] }
  | r :: rest =>
    { r with results := r.results ++ (rest.map RowResponse.results).flatten }

/-- `Client.list_all_table_rows` (client.py lines 273-335): probe the row
count (unfiltered), compute `total_calls = (count + 200 - 1) // 200` (Python
floor division), create one task per page `1..total_calls` with `size=200`,
gather them (modelled through the arrival list), and merge the responses in
task order.  Returns (all issued requests, merged response). -/
def listAllTableRows (srv : ListRowsRequest → RowResponse α)
    (arrivals : List (Nat × RowResponse α)) (tableId : Int)
    (userFieldNames : Bool) (filter : Option Filter)
    (orderBy : Option (List String)) :
    List ListRowsRequest × RowResponse α :=
  let probe := tableRowCount srv tableId none
  let count : Int := probe.2
  let totalCalls : Nat := ((count + 200 - 1).fdiv 200).toNat
  let pageReqs : List ListRowsRequest :=
    (List.range' 1 totalCalls).map
      (fun p => pageRequest tableId userFieldNames filter orderBy p)
  let responses := gatherResults pageReqs.length arrivals
  (probe.1 ++ pageReqs, mergeResponses responses)

/-- The slice of the table that Baserow serves for page `p` (1-based) at page
size 200, when the full table content is `allRows`. -/
def pageSlice (allRows : List α) (p : Nat) : List α :=
  (allRows.drop (200 * (p - 1))).take 200

/-! ### `Table.query` (`src/baserow/table.py` lines 207-259) -/

/-- Which client routine `Table.query` delegates to (and with which
arguments): `list_all_table_rows` or `list_table_rows`. -/
inductive QueryDelegation where
  | fetchAll (filter : Option Filter) (orderBy : Option (List String))
  | fetchPage (filter : Option Filter) (orderBy : Option (List String))
      (page : Option Int) (size : Option Int)
deriving DecidableEq

/-- The `ValueError` raised by `Table.query` when a specific page is requested
together with `size=-1`. -/
inductive QueryError where
  | pageWithSizeAll
deriving DecidableEq

/-- Python truthiness of an `Optional[int]`: `None` and `0` are falsy, every
other integer is truthy. -/
def pyTruthyOptInt : Option Int → Bool
  | none => false
  | some n => n != 0

/-- `Table.query` dispatch (table.py lines 237-259): `if size == -1 and page:`
raise `ValueError`; `if size is not None and size == -1:` delegate to
`list_all_table_rows`, else delegate to `list_table_rows`.  No request is made
before the dispatch, so an error here precedes any network call. -/
def tableQuery (filter : Option Filter) (orderBy : Option (List String))
    (page : Option Int) (size : Option Int) :
    Except QueryError QueryDelegation :=
  if size = some (-1) ∧ pyTruthyOptInt page then
    .error .pageWithSizeAll
  else if size.isSome ∧ size = some (-1) then
    .ok (.fetchAll filter orderBy)
  else
    .ok (.fetchPage filter orderBy page size)

/-! ### The global client singleton (`GlobalClient`, client.py lines 840-955) -/

/-- The class-level configuration state of `GlobalClient`: `__url`, `__token`,
`__email`, `__password` and `_is_configured`. -/
structure GlobalClientConfig where
  url : String
  token : Option String
  email : Option String
  password : Option String
  isConfigured : Bool
deriving DecidableEq

/-- The state before any `configure` call (the class-body initializers). -/
def GlobalClientConfig.initial : GlobalClientConfig :=
  { url := "", token := none, email := none, password := none,
    isConfigured := false }

/-- Modelled from the spec: `SingletonAlreadyConfiguredError`, raised by
`GlobalClient.configure` on a repeated configuration attempt, is imported by
client.py from `baserow/error.py` but its definition is not among the source
files; the spec describes it as a configuration-conflict error. -/
inductive ConfigError where
  | singletonAlreadyConfigured
deriving DecidableEq

/-- `GlobalClient.configure` (client.py lines 883-911): if already configured,
raise the configuration-conflict error (the class state is only written after
that check, so nothing changes); otherwise record url/token/email/password and
set `_is_configured = True`.  Returns (raised error if any, resulting state).
-/
def configure (s : GlobalClientConfig) (url : String)
    (token email password : Option String) :
    Option ConfigError × GlobalClientConfig :=
  if s.isConfigured then
    (some .singletonAlreadyConfigured, s)
  else
    (none, { url := url, token := token, email := email, password := password,
             isConfigured := true })

/-! ### Response-to-error mapping (`Client._request`, client.py lines 796-837)
-/

/-- `ErrorResponse` (client.py): the body shape Baserow uses for a 400
response; `detail` is an arbitrary payload (`Any`), kept abstract. -/
structure ErrorResponse (δ : Type) where
  error : String
  detail : δ

/-- The possible outcomes of `Client._request` after the HTTP response is in:
a normal return (possibly `None`), a structured `BaserowError`, an
`UnspecifiedBaserowError`, or a pydantic validation failure while parsing a
body. -/
inductive RequestOutcome (δ ρ : Type) where
  | result (r : Option ρ)
  | baserowError (status : Nat) (name : String) (detail : δ)
  | unspecifiedBaserowError (status : Nat) (body : String)
  | validationError
deriving DecidableEq

/-- The response handling of `Client._request` (client.py lines 826-837),
parametrized by the pydantic parsers: `parseErrorBody` models
`ErrorResponse.model_validate_json`, `resultParse` models
`result_type.model_validate_json` when a `result_type` was passed (`none`
models `result_type=None`).  Status 400: parse the body and raise
`BaserowError(status, err.error, err.detail)`; status 204: return `None`;
any other status except 200: raise `UnspecifiedBaserowError(status, body)`;
status 200: parse the body if a result type is given, else return `None`. -/
def handleResponse (parseErrorBody : String → Option (ErrorResponse δ))
    (resultParse : Option (String → Option ρ)) (status : Nat) (body : String) :
    RequestOutcome δ ρ :=
  if status = 400 then
    match parseErrorBody body with
    | some e => .baserowError status e.error e.detail
    | none => .validationError
  else if status = 204 then
    .result none
  else if status ≠ 200 then
    .unspecifiedBaserowError status body
  else
    match resultParse with
    | some p =>
      match p body with
      | some r => .result (some r)
      | none => .validationError
    | none => .result none

/-! ### Batch create and delete (client.py lines 460-526 and 579-619) -/

/-- The write requests issued by `create_rows` and `delete_row`. -/
inductive NetRequest (ρ : Type) where
  | batchCreate (tableId : Int) (items : List ρ) (userFieldNames : Bool)
      (before : Option Int)
  | deleteSingle (tableId : Int) (rowId : Int)
  | batchDelete (tableId : Int) (rowIds : List Int)
deriving DecidableEq

/-- `BatchResponse` (client.py): the items of a batch call result. -/
structure BatchResponse (α : Type) where
  items : List α
deriving DecidableEq

/-- `Client.create_rows` (client.py lines 460-526): with an empty `data` list
it returns `BatchResponse(items=[])` before building any request; otherwise it
posts one batch-create request and returns the parsed response. -/
def createRows (srv : NetRequest ρ → BatchResponse ρ) (tableId : Int)
    (data : List ρ) (userFieldNames : Bool) (before : Option Int) :
    List (NetRequest ρ) × BatchResponse ρ :=
  if data.length = 0 then
    ([], { items := [] })
  else
    let req : NetRequest ρ := .batchCreate tableId data userFieldNames before
    ([req], srv req)

/-- The `Union[int, list[int]]` argument of `Client.delete_row`. -/
inductive RowIdArg where
  | single (id : Int)
  | multiple (ids : List Int)
deriving DecidableEq

/-- `Client.delete_row` (client.py lines 579-619): an `int` id issues one
DELETE for that row; a list of ids issues one POST to the batch-delete
endpoint carrying the ids (in both branches a request is sent
unconditionally).  Returns the issued requests. -/
def deleteRow (tableId : Int) (rowId : RowIdArg) : List (NetRequest ρ) :=
  match rowId with
  | .single id => [.deleteSingle tableId id]
  | .multiple ids => [.batchDelete tableId ids]

/-! ### Row links and the link cache (`src/baserow/table.py` lines 41-128) -/

/-- `RowLink` (table.py): `row_id` (alias `id`) and `key` (alias `value`). -/
structure RowLink where
  rowId : Option Int
  key : Option String
deriving DecidableEq

/-- The `id_or_value_must_be_set` pydantic validator of `RowLink` (table.py
lines 51-57): constructing a `RowLink` with both fields `None` raises a
`ValueError`. -/
def RowLink.idOrValueMustBeSet (l : RowLink) : Except String RowLink :=
  match l.rowId, l.key with
  | none, none =>
    .error "At least one of the row_id and value fields must be set"
  | _, _ => .ok l

/-- `RowLink.serialize` (table.py lines 59-73): the id when set, otherwise the
key, otherwise a `ValueError`. -/
def RowLink.serialize (l : RowLink) : Except String (Int ⊕ String) :=
  match l.rowId with
  | some id => .ok (.inl id)
  | none =>
    match l.key with
    | some k => .ok (.inr k)
    | none => .error "both fields id and key are unset for this entry"

/-- `RowLink.query_linked_row` (table.py lines 75-84): fails unless `row_id`
is set, otherwise fetches the target row by id (`Table.by_id`, modelled by the
abstract `fetch`). -/
def RowLink.queryLinkedRow (fetch : Int → τ) (l : RowLink) : Except String τ :=
  match l.rowId with
  | none =>
    .error "query_linked_row is currently only implemented using the row_id"
  | some id => .ok (fetch id)

/-- `TableLinkField` (table.py lines 99-128): the list of links (`root`) plus
the private memoization cache `_cache` (initially `None`). -/
structure TableLinkField (τ : Type) where
  root : List RowLink
  cache : Option (List τ)

/-- `TableLinkField.query_linked_rows` (table.py lines 111-118): fetch every
linked row in order, propagating the first failure. -/
def TableLinkField.queryLinkedRows (fetch : Int → τ) (f : TableLinkField τ) :
    Except String (List τ) :=
  f.root.mapM (fun l => l.queryLinkedRow fetch)

/-- `TableLinkField.cached_query_linked_rows` (table.py lines 120-128): if the
cache is populated return it unchanged, otherwise run `query_linked_rows` and
store the result.  The third component counts how many times the underlying
`query_linked_rows` fetch was invoked by this call. -/
def TableLinkField.cachedQueryLinkedRows (fetch : Int → τ)
    (f : TableLinkField τ) :
    Except String (List τ) × TableLinkField τ × Nat :=
  match f.cache with
  | some c => (.ok c, f, 0)
  | none =>
    match f.queryLinkedRows fetch with
    | .ok r => (.ok r, { f with cache := some r }, 1)
    | .error e => (.error e, f, 1)

/-! ### Client resolution for tables (`Table.__req_client`, table.py lines
183-194) -/

/-- A value stored in a Python class attribute, as far as the claims need. -/
inductive PyClassValue where
  | pyBool (b : Bool)
  | pyNone
  | pyStr (s : String)
  | pyMethod (name : String)
deriving DecidableEq

/-- The class attribute dictionary visible on `GlobalClient` (its own class
body, client.py lines 856-911, plus the methods inherited from `Client`;
double-underscore names are name-mangled as Python does).  The configuration
flag defined in the class body is `_is_configured` (line 858); its current
value is the parameter `isConfiguredVal`. -/
def globalClientClassDict (isConfiguredVal : Bool) :
    List (String × PyClassValue) :=
  [("_instance", .pyNone),
   ("_is_initialized", .pyBool false),
   ("_is_configured", .pyBool isConfiguredVal),
   ("_GlobalClient__url", .pyStr ""),
   ("_GlobalClient__token", .pyNone),
   ("_GlobalClient__email", .pyNone),
   ("_GlobalClient__password", .pyNone),
   ("__new__", .pyMethod "__new__"),
   ("__init__", .pyMethod "__init__"),
   ("configure", .pyMethod "configure"),
   ("token_auth", .pyMethod "token_auth"),
   ("list_table_rows", .pyMethod "list_table_rows"),
   ("list_all_table_rows", .pyMethod "list_all_table_rows"),
   ("table_row_count", .pyMethod "table_row_count"),
   ("list_fields", .pyMethod "list_fields"),
   ("get_row", .pyMethod "get_row"),
   ("create_row", .pyMethod "create_row"),
   ("create_rows", .pyMethod "create_rows"),
   ("update_row", .pyMethod "update_row"),
   ("delete_row", .pyMethod "delete_row"),
   ("list_database_tables", .pyMethod "list_database_tables"),
   ("create_database_table", .pyMethod "create_database_table"),
   ("create_database_table_field", .pyMethod "create_database_table_field"),
   ("close", .pyMethod "close"),
   ("_Client__headers", .pyMethod "__headers"),
   ("_typed_request", .pyMethod "_typed_request"),
   ("_request", .pyMethod "_request")]

/-- What `Table.__req_client` can produce. -/
inductive ReqClientResult where
  | globalClientInstance
  | boundClient
deriving DecidableEq

/-- The errors `Table.__req_client` can raise: Python's `AttributeError` for a
missing class attribute, or `NoClientAvailableError` naming the table
(error.py lines 39-55). -/
inductive ReqClientError where
  | attributeError (className : String) (attrName : String)
  | noClientAvailableError (tableName : String)
deriving DecidableEq

/-- Python class attribute access `GlobalClient.<attrName>`: look the name up
in the class dictionary (including inherited attributes); a miss raises
`AttributeError`. -/
def globalClientGetAttr (isConfiguredVal : Bool) (attrName : String) :
    Except ReqClientError PyClassValue :=
  match assocLookup attrName (globalClientClassDict isConfiguredVal) with
  | some v => .ok v
  | none => .error (.attributeError "GlobalClient" attrName)

/-- Python truthiness of a class attribute value. -/
def pyTruthyValue : PyClassValue → Bool
  | .pyBool b => b
  | .pyNone => false
  | .pyStr s => s ≠ ""
  | .pyMethod _ => true

/-- `Table.__req_client` (table.py lines 183-194):
`if cls.client is None and not GlobalClient.is_configured:` raise
`NoClientAvailableError(cls.table_name)`; `if cls.client is None:` return
`GlobalClient()`; else return `cls.client`.  The `and` short-circuits, so
`GlobalClient.is_configured` is evaluated exactly when `cls.client is None`;
`clientIsNone` states whether `Table.client` is `None` and `isConfiguredVal`
is the current value of the `_is_configured` class attribute. -/
def reqClient (isConfiguredVal : Bool) (clientIsNone : Bool)
    (tableName : String) : Except ReqClientError ReqClientResult := do
  let firstCond ←
    if clientIsNone then
      match globalClientGetAttr isConfiguredVal "is_configured" with
      | .error e => Except.error e
      | .ok v => Except.ok (!pyTruthyValue v)
    else
      Except.ok false
  if firstCond then
    Except.error (.noClientAvailableError tableName)
  else if clientIsNone then
    Except.ok .globalClientInstance
  else
    Except.ok .boundClient

/-! ### Select entries (`src/baserow/field.py` lines 252-284) -/

/-- `SelectEntry` (field.py): `entry_id` (alias `id`), the enum `value` and an
optional color.  The enum type is abstract; `enumStr` below maps an enum
member to its `.value` string. -/
structure SelectEntry (ε : Type) where
  entryId : Option Int
  value : Option ε
  color : Option String

/-- The `id_or_value_must_be_set` validator of `SelectEntry` (field.py lines
260-266). -/
def SelectEntry.idOrValueMustBeSet (e : SelectEntry ε) :
    Except String (SelectEntry ε) :=
  match e.entryId, e.value with
  | none, none =>
    .error "At least one of the entry_id and value fields must be set"
  | _, _ => .ok e

/-- `SelectEntry.serialize` (field.py lines 268-284): the option id when set,
otherwise the enum member's `.value` string, otherwise a `ValueError`. -/
def SelectEntry.serialize (enumStr : ε → String) (e : SelectEntry ε) :
    Except String (Int ⊕ String) :=
  match e.entryId with
  | some id => .ok (.inl id)
  | none =>
    match e.value with
    | some v => .ok (.inr (enumStr v))
    | none => .error "both fields id and value are unset for this entry"

/-! ### Concrete instances used to instantiate the theorems -/

/-- A concrete server for a two-row table: the probe (size 1) reports count 2,
every page request is answered with the two rows. -/
def demoServer : ListRowsRequest → RowResponse Nat :=
  fun r =>
    if r.size = some 1 then ⟨2, none, none, []⟩ else ⟨2, none, none, [10, 20]⟩

/-- Arrivals for `demoServer`: the canonical in-order completion. -/
def demoArrivals : List (Nat × RowResponse Nat) :=
  indexFrom 0
    (((List.range' 1 (([10, 20].length + 199) / 200)).map
      (pageRequest 1 true none none)).map demoServer)

/-- A concrete server whose probe reports 201 rows. -/
def demoServer201 : ListRowsRequest → RowResponse Unit :=
  fun _ => ⟨201, none, none, []⟩

/-- A concrete filter. -/
def demoFilter : Filter :=
  ⟨.opAnd, [⟨.inr "name", .equals, some "x"⟩]⟩

/-- A concrete link field with two links (by row id) and an empty cache. -/
def demoLinkField : TableLinkField Int :=
  ⟨[⟨some 5, none⟩, ⟨some 9, none⟩], none⟩

/-! ### Auxiliary lemmas about gather and page slices -/

theorem assocLookup_perm [DecidableEq κ] (k : κ) {l₁ l₂ : List (κ × β)}
    (h : l₁.Perm l₂) :
    (l₁.map Prod.fst).Nodup → assocLookup k l₁ = assocLookup k l₂ := by
  induction h with
  | nil => intro _; rfl
  | cons x h ih =>
    intro nd
    obtain ⟨k', v⟩ := x
    simp only [List.map_cons, List.nodup_cons] at nd
    simp only [assocLookup]
    rw [ih nd.2]
  | swap x y l =>
    intro nd
    obtain ⟨k₁, v₁⟩ := x
    obtain ⟨k₂, v₂⟩ := y
    simp only [List.map_cons, List.nodup_cons, List.mem_cons] at nd
    have hne : k₂ ≠ k₁ := fun e => nd.1 (Or.inl e)
    simp only [assocLookup]
    by_cases h₁ : k₁ = k
    · by_cases h₂ : k₂ = k
      · exact absurd (h₂.trans h₁.symm) hne
      · simp [h₁, h₂]
    · by_cases h₂ : k₂ = k <;> simp [h₁, h₂]
  | trans h₁ _h₂ ih₁ ih₂ =>
    intro nd
    rw [ih₁ nd, ih₂ ((h₁.map Prod.fst).nodup nd)]

theorem assocLookup_indexFrom (l : List β) :
    ∀ (k j : Nat), assocLookup (k + j) (indexFrom k l) = l[j]? := by
  induction l with
  | nil => intro k j; simp [indexFrom, assocLookup]
  | cons r rest ih =>
    intro k j
    cases j with
    | zero => simp [indexFrom, assocLookup]
    | succ j' =>
      have hne : k ≠ k + (j' + 1) := by omega
      have harg : k + (j' + 1) = (k + 1) + j' := by omega
      simp only [indexFrom, assocLookup, if_neg hne]
      rw [harg, ih (k + 1) j']
      simp

theorem indexFrom_map_fst (l : List β) :
    ∀ k, (indexFrom k l).map Prod.fst = List.range' k l.length := by
  induction l with
  | nil => intro k; rfl
  | cons r rest ih =>
    intro k
    simp only [indexFrom, List.map_cons, List.length_cons, List.range'_succ]
    rw [ih (k + 1)]

theorem gatherResults_perm (l : List β) (arrivals : List (Nat × β))
    (h : arrivals.Perm (indexFrom 0 l)) :
    gatherResults l.length arrivals = l := by
  have hnd : ((indexFrom 0 l).map Prod.fst).Nodup := by
    rw [indexFrom_map_fst]
    exact List.nodup_range' 0 l.length
  have hlook : ∀ i, assocLookup i arrivals = l[i]? := by
    intro i
    rw [← assocLookup_perm i h.symm hnd]
    have := assocLookup_indexFrom l 0 i
    simpa using this
  unfold gatherResults
  have hcong : (List.range l.length).filterMap (fun i => assocLookup i arrivals)
      = (List.range l.length).filterMap (fun i => l[i]?) := by
    apply List.filterMap_congr
    intro i _
    exact hlook i
  rw [hcong]
  clear hcong hlook hnd h
  induction l with
  | nil => rfl
  | cons a t ih =>
    simp only [List.length_cons, List.range_succ_eq_map, List.filterMap_cons,
      List.getElem?_cons_zero, List.filterMap_map, Function.comp_def,
      List.getElem?_cons_succ]
    rw [ih]

theorem mergeResponses_results (rs : List (RowResponse α)) :
    (mergeResponses rs).results = (rs.map RowResponse.results).flatten := by
  cases rs with
  | nil => rfl
  | cons r rest => simp [mergeResponses]

theorem totalCalls_eq (n : Nat) :
    (((n : Int) + 200 - 1).fdiv 200).toNat = (n + 199) / 200 := by
  have h1 : (n : Int) + 200 - 1 = ((n + 199 : Nat) : Int) := by push_cast; ring
  rw [h1, Int.fdiv_eq_ediv _ (by omega)]
  omega

theorem flatten_pageSlices (l : List α) :
    ((List.range' 1 ((l.length + 199) / 200)).map (pageSlice l)).flatten
      = l := by
  by_cases h0 : l.length = 0
  · have hl : l = [] := List.length_eq_zero.mp h0
    subst hl
    simp
  · have hT : (l.length + 199) / 200 = ((l.length - 200) + 199) / 200 + 1 := by
      omega
    rw [hT, List.range'_succ]
    simp only [List.map_cons, List.flatten_cons]
    have hhead : pageSlice l 1 = l.take 200 := by simp [pageSlice]
    have htail :
        (List.range' 2 (((l.length - 200) + 199) / 200)).map (pageSlice l)
          = (List.range' 1 (((l.length - 200) + 199) / 200)).map
              (pageSlice (l.drop 200)) := by
      rw [← List.map_add_range' 1 1 (((l.length - 200) + 199) / 200) 1,
        List.map_map]
      apply List.map_congr_left
      intro p hp
      have hp1 : 1 ≤ p := by
        rw [List.mem_range'] at hp
        omega
      show pageSlice l (1 + p) = pageSlice (l.drop 200) p
      simp only [pageSlice, List.drop_drop]
      have harith : 200 * ((1 + p) - 1) = 200 * (p - 1) + 200 := by omega
      rw [harith, Nat.add_comm (200 * (p - 1)) 200]
    rw [hhead, htail]
    have ihtail := flatten_pageSlices (l.drop 200)
    rw [List.length_drop] at ihtail
    rw [ihtail]
    exact List.take_append_drop 200 l
termination_by l.length
decreasing_by
  simp only [List.length_drop]
  omega

/-- Computed form of `listAllTableRows`: the issued requests are the probe
followed by the page requests, and the result merges the gathered responses. -/
theorem listAllTableRows_eq (srv : ListRowsRequest → RowResponse α)
    (arrivals : List (Nat × RowResponse α)) (tableId : Int) (ufn : Bool)
    (filter : Option Filter) (orderBy : Option (List String)) :
    listAllTableRows srv arrivals tableId ufn filter orderBy
      = (probeRequest tableId ::
          (List.range' 1
            (((srv (probeRequest tableId)).count + 200 - 1).fdiv 200).toNat).map
            (pageRequest tableId ufn filter orderBy),
         mergeResponses (gatherResults
           ((List.range' 1
              (((srv (probeRequest tableId)).count + 200 - 1).fdiv 200).toNat).map
              (pageRequest tableId ufn filter orderBy)).length arrivals)) := rfl

/-- C1: when the 1-row probe reports `n = allRows.length` rows,
`list_all_table_rows` issues exactly `⌈n/200⌉ = (n + 199) / 200` page requests
(pages 1 through `⌈n/200⌉`, each with `size=200`), and — for any completion
order of the concurrently issued page requests (any permutation `arrivals` of
the indexed responses) — returns exactly the `n` rows concatenated in page
order; when the probe reports 0, it issues no page request and returns an
empty result. -/
theorem listAllTableRows_spec (tableId : Int) (ufn : Bool)
    (filter : Option Filter) (orderBy : Option (List String))
    (allRows : List α) (srv : ListRowsRequest → RowResponse α)
    (arrivals : List (Nat × RowResponse α))
    (hprobe : (srv (probeRequest tableId)).count = (allRows.length : Int))
    (hpages : ∀ p ∈ List.range' 1 ((allRows.length + 199) / 200),
      (srv (pageRequest tableId ufn filter orderBy p)).results
        = pageSlice allRows p)
    (harr : arrivals.Perm (indexFrom 0
      (((List.range' 1 ((allRows.length + 199) / 200)).map
        (pageRequest tableId ufn filter orderBy)).map srv))) :
    (listAllTableRows srv arrivals tableId ufn filter orderBy).1
        = probeRequest tableId ::
          (List.range' 1 ((allRows.length + 199) / 200)).map
            (pageRequest tableId ufn filter orderBy)
      ∧ (listAllTableRows srv arrivals tableId ufn filter orderBy).1.length
          = (allRows.length + 199) / 200 + 1
      ∧ (listAllTableRows srv arrivals tableId ufn filter orderBy).2.results
          = allRows
      ∧ (allRows.length = 0 →
          (listAllTableRows srv arrivals tableId ufn filter orderBy).1
              = [probeRequest tableId]
            ∧ (listAllTableRows srv arrivals tableId ufn filter orderBy).2.results
              = []) := by
  have heq := listAllTableRows_eq srv arrivals tableId ufn filter orderBy
  rw [hprobe, totalCalls_eq] at heq
  have hreqs :
      (listAllTableRows srv arrivals tableId ufn filter orderBy).1
        = probeRequest tableId ::
          (List.range' 1 ((allRows.length + 199) / 200)).map
            (pageRequest tableId ufn filter orderBy) := by
    rw [heq]
  have hgather :
      gatherResults
        ((List.range' 1 ((allRows.length + 199) / 200)).map
          (pageRequest tableId ufn filter orderBy)).length arrivals
        = ((List.range' 1 ((allRows.length + 199) / 200)).map
            (pageRequest tableId ufn filter orderBy)).map srv := by
    rw [show ((List.range' 1 ((allRows.length + 199) / 200)).map
          (pageRequest tableId ufn filter orderBy)).length
        = (((List.range' 1 ((allRows.length + 199) / 200)).map
            (pageRequest tableId ufn filter orderBy)).map srv).length by simp]
    exact gatherResults_perm _ arrivals harr
  have hres :
      (listAllTableRows srv arrivals tableId ufn filter orderBy).2.results
        = allRows := by
    rw [heq]
    show (mergeResponses _).results = allRows
    rw [mergeResponses_results, hgather]
    rw [List.map_map, List.map_map]
    have hcong :
        (List.range' 1 ((allRows.length + 199) / 200)).map
            ((RowResponse.results ∘ srv) ∘ pageRequest tableId ufn filter orderBy)
          = (List.range' 1 ((allRows.length + 199) / 200)).map
              (pageSlice allRows) := by
      apply List.map_congr_left
      intro p hp
      exact hpages p hp
    rw [hcong, flatten_pageSlices]
  refine ⟨hreqs, ?_, hres, ?_⟩
  · rw [hreqs]
    simp
  · intro h0
    have hz : (allRows.length + 199) / 200 = 0 := by omega
    constructor
    · rw [hreqs, hz]
      rfl
    · rw [hres]
      exact List.length_eq_zero.mp h0

/-- Witness for C1: a two-row table is fetched in one page request and the
merged result is the two rows in order. -/
theorem listAllTableRows_spec_witness :
    (listAllTableRows demoServer demoArrivals 1 true none none).2.results
        = [10, 20]
      ∧ (listAllTableRows demoServer demoArrivals 1 true none none).1.length
        = 2 := by
  have h := listAllTableRows_spec 1 true none none [10, 20] demoServer
    demoArrivals (by rfl)
    (by
      intro p hp
      have hp1 : p = 1 := by
        simpa using hp
      subst hp1
      rfl)
    (List.Perm.refl _)
  exact ⟨h.2.2.1, h.2.1⟩

/-- C10: when `list_all_table_rows` is called with a filter, the 1-row count
probe it performs does not carry that filter (it is the unfiltered
`probeRequest`, with `size=1` and no `filters` parameter), the number of page
requests is `⌈n/200⌉` for the count `n` the unfiltered probe reports, and
every issued page request does carry the filter (with `size=200`). -/
theorem listAllTableRows_probe_unfiltered (tableId : Int) (ufn : Bool)
    (f : Filter) (orderBy : Option (List String)) (n : Nat)
    (srv : ListRowsRequest → RowResponse α)
    (arrivals : List (Nat × RowResponse α))
    (hprobe : (srv (probeRequest tableId)).count = (n : Int)) :
    (listAllTableRows srv arrivals tableId ufn (some f) orderBy).1
        = probeRequest tableId ::
          (List.range' 1 ((n + 199) / 200)).map
            (pageRequest tableId ufn (some f) orderBy)
      ∧ (probeRequest tableId).filter = none
      ∧ (probeRequest tableId).size = some 1
      ∧ (listAllTableRows srv arrivals tableId ufn (some f) orderBy).1.tail.length
          = (n + 199) / 200
      ∧ ∀ r ∈ (listAllTableRows srv arrivals tableId ufn (some f) orderBy).1.tail,
          r.filter = some f ∧ r.size = some 200 := by
  have heq := listAllTableRows_eq srv arrivals tableId ufn (some f) orderBy
  rw [hprobe, totalCalls_eq] at heq
  have hreqs :
      (listAllTableRows srv arrivals tableId ufn (some f) orderBy).1
        = probeRequest tableId ::
          (List.range' 1 ((n + 199) / 200)).map
            (pageRequest tableId ufn (some f) orderBy) := by
    rw [heq]
  refine ⟨hreqs, rfl, rfl, ?_, ?_⟩
  · rw [hreqs]
    simp
  · rw [hreqs]
    intro r hr
    simp only [List.tail_cons, List.mem_map] at hr
    obtain ⟨p, _, rfl⟩ := hr
    exact ⟨rfl, rfl⟩

/-- Witness for C10: with an unfiltered probe count of 201 and a filter on the
call, two page requests are issued, each carrying the filter. -/
theorem listAllTableRows_probe_unfiltered_witness :
    (listAllTableRows demoServer201 [] 1 true (some demoFilter) none).1.tail.length
        = 2
      ∧ (probeRequest 1).filter = none
      ∧ ∀ r ∈ (listAllTableRows demoServer201 [] 1 true
            (some demoFilter) none).1.tail,
          r.filter = some demoFilter := by
  have h := listAllTableRows_probe_unfiltered 1 true demoFilter none 201
    demoServer201 [] (by rfl)
  exact ⟨h.2.2.2.1, h.2.1, fun r hr => (h.2.2.2.2 r hr).1⟩

/-- C2 counterexample: calling `Table.query` with `size=-1` together with the
non-null page argument `0` does not raise the validation error: the Python
truthiness test `if size == -1 and page:` treats `page=0` like an absent page
and the call delegates to `list_all_table_rows`. -/
theorem tableQuery_page_zero_counterexample :
    (some (0 : Int)).isSome = true
      ∧ tableQuery none none (some 0) (some (-1))
          = .ok (.fetchAll none none) :=
  ⟨rfl, rfl⟩

/-- C2 (amended): with `size = -1` and a page argument that is non-null and
non-zero (Python-truthy), `Table.query` fails with the validation error
before delegating (hence before any network call); with `size = -1` and a
null or zero page it delegates to `list_all_table_rows`; with any other size
it delegates to `list_table_rows`. -/
theorem tableQuery_dispatch (filter : Option Filter)
    (orderBy : Option (List String)) (page : Option Int) (size : Option Int) :
    (size = some (-1) → pyTruthyOptInt page = true →
        tableQuery filter orderBy page size = .error .pageWithSizeAll)
      ∧ (size = some (-1) → pyTruthyOptInt page = false →
        tableQuery filter orderBy page size = .ok (.fetchAll filter orderBy))
      ∧ (size ≠ some (-1) →
        tableQuery filter orderBy page size
          = .ok (.fetchPage filter orderBy page size)) := by
  refine ⟨?_, ?_, ?_⟩
  · intro hs hp
    subst hs
    simp [tableQuery, hp]
  · intro hs hp
    subst hs
    simp [tableQuery, hp]
  · intro hs
    simp [tableQuery, hs]

/-- Witness for the amended C2 at concrete arguments: page 2 with size -1
errors, no page with size -1 fetches all, size 100 fetches one page. -/
theorem tableQuery_dispatch_witness :
    tableQuery none none (some 2) (some (-1)) = .error .pageWithSizeAll
      ∧ tableQuery none none none (some (-1)) = .ok (.fetchAll none none)
      ∧ tableQuery none none (some 1) (some 100)
          = .ok (.fetchPage none none (some 1) (some 100)) :=
  ⟨(tableQuery_dispatch none none (some 2) (some (-1))).1 rfl rfl,
   (tableQuery_dispatch none none none (some (-1))).2.1 rfl rfl,
   (tableQuery_dispatch none none (some 1) (some 100)).2.2 (by decide)⟩

/-- C3: the singleton is configurable at most once: from the initial
unconfigured state `configure` succeeds and records url, token, email and
password; from any configured state — in particular the state left by the
first call — every further `configure` call fails with the
configuration-conflict error and leaves the recorded configuration (its URL
included) unchanged. -/
theorem configure_once (url₁ url₂ : String)
    (t₁ e₁ p₁ t₂ e₂ p₂ : Option String) :
    (configure GlobalClientConfig.initial url₁ t₁ e₁ p₁).1 = none
      ∧ (configure GlobalClientConfig.initial url₁ t₁ e₁ p₁).2
          = ⟨url₁, t₁, e₁, p₁, true⟩
      ∧ ∀ s : GlobalClientConfig, s.isConfigured = true →
          configure s url₂ t₂ e₂ p₂
            = (some .singletonAlreadyConfigured, s) := by
  refine ⟨rfl, rfl, ?_⟩
  intro s hs
  simp [configure, hs]

/-- Witness for C3: configuring twice at concrete URLs: the first call
records the first URL, the second call errors and keeps the state (and so the
URL) of the first. -/
theorem configure_once_witness :
    (configure GlobalClientConfig.initial "https://a.example" none none
        none).1 = none
      ∧ configure
            (configure GlobalClientConfig.initial "https://a.example" none
              none none).2 "https://b.example" none none none
          = (some .singletonAlreadyConfigured,
             (configure GlobalClientConfig.initial "https://a.example" none
               none none).2) := by
  have h := configure_once "https://a.example" "https://b.example"
    none none none none none none
  exact ⟨h.1, h.2.2 _ rfl⟩

/-- C4 counterexample: a response with status 201 — a 2xx status, neither 204
nor 400, which the claim therefore classifies as raising no error — makes the
request path raise `UnspecifiedBaserowError`: the code raises for every
status other than 200, 204 and 400, not only for non-2xx statuses. -/
theorem handleResponse_status201_counterexample :
    (200 ≤ 201 ∧ 201 < 300)
      ∧ handleResponse (δ := Unit) (ρ := Unit) (fun _ => none) none 201 "body"
          = .unspecifiedBaserowError 201 "body" :=
  ⟨by decide, rfl⟩

/-- C4 (amended): the status mapping of `Client._request`: a 400 whose body
parses as an error response raises the structured failure carrying the short
error code and the detail payload; a 204 yields no result and no error; every
status other than 400, 204 and 200 raises the generic failure carrying the
status code and the raw body; a 200 yields the parsed result (or no result
when no result type was requested) without error. -/
theorem handleResponse_mapping
    (parseErrorBody : String → Option (ErrorResponse δ))
    (resultParse : Option (String → Option ρ)) (status : Nat) (body : String) :
    (status = 400 → ∀ e, parseErrorBody body = some e →
        handleResponse parseErrorBody resultParse status body
          = .baserowError 400 e.error e.detail)
      ∧ (status = 204 →
        handleResponse parseErrorBody resultParse status body = .result none)
      ∧ (status ≠ 400 → status ≠ 204 → status ≠ 200 →
        handleResponse parseErrorBody resultParse status body
          = .unspecifiedBaserowError status body)
      ∧ (status = 200 → ∀ p r, resultParse = some p → p body = some r →
        handleResponse parseErrorBody resultParse status body
          = .result (some r))
      ∧ (status = 200 → resultParse = none →
        handleResponse parseErrorBody resultParse status body
          = .result none) := by
  refine ⟨?_, ?_, ?_, ?_, ?_⟩
  · intro hs e he
    subst hs
    simp [handleResponse, he]
  · intro hs
    subst hs
    simp [handleResponse]
  · intro h4 h2 h0
    simp [handleResponse, h4, h2, h0]
  · intro hs p r hp hr
    subst hs
    simp [handleResponse, hp, hr]
  · intro hs hp
    subst hs
    simp [handleResponse, hp]

/-- Witness for the amended C4 at concrete statuses 400, 204 and 500. -/
theorem handleResponse_mapping_witness :
    handleResponse
        (fun _ => some (⟨"ERROR_REQUEST_INVALID", "det"⟩ : ErrorResponse String))
        (none : Option (String → Option Unit)) 400 "b"
      = .baserowError 400 "ERROR_REQUEST_INVALID" "det"
      ∧ handleResponse (fun _ => (none : Option (ErrorResponse String)))
          (none : Option (String → Option Unit)) 204 "b" = .result none
      ∧ handleResponse (fun _ => (none : Option (ErrorResponse String)))
          (none : Option (String → Option Unit)) 500 "oops"
        = .unspecifiedBaserowError 500 "oops" :=
  ⟨(handleResponse_mapping _ _ 400 "b").1 rfl _ rfl,
   (handleResponse_mapping _ _ 204 "b").2.1 rfl,
   (handleResponse_mapping _ _ 500 "oops").2.2.1 (by decide) (by decide)
     (by decide)⟩

/-- C5 counterexample: `delete_row` with an empty id list does not complete
without a network request: it issues the batch-delete request (with an empty
items payload). -/
theorem deleteRow_empty_counterexample :
    deleteRow (ρ := Unit) 7 (.multiple []) = [.batchDelete 7 []]
      ∧ (deleteRow (ρ := Unit) 7 (.multiple [])).length = 1 :=
  ⟨rfl, rfl⟩

/-- C5 (amended): `create_rows` with an empty input list returns an empty
batch response without issuing any request, but `delete_row` with an id list
— the empty list included — always issues exactly one batch-delete request
carrying those ids (and with a single id exactly one single-row delete). -/
theorem emptyBatch_behavior (srv : NetRequest ρ → BatchResponse ρ)
    (tableId : Int) (ufn : Bool) (before : Option Int) (ids : List Int)
    (id : Int) :
    createRows srv tableId [] ufn before = ([], { items := [] })
      ∧ deleteRow (ρ := ρ) tableId (.multiple ids) = [.batchDelete tableId ids]
      ∧ deleteRow (ρ := ρ) tableId (.single id)
          = [.deleteSingle tableId id] :=
  ⟨rfl, rfl, rfl⟩

/-- C6: `cached_query_linked_rows` memoizes: from an empty cache, when the
underlying fetch succeeds with `r`, the first call invokes the underlying
`query_linked_rows` fetch exactly once and returns `r`, stores it in the
cache, and the second call returns the identical cached list with zero fetch
invocations and leaves the state unchanged; moreover on any state with a
populated cache the call returns the cache with the state unchanged and no
fetch — the cache is never invalidated or re-validated by the operation. -/
theorem cachedQueryLinkedRows_memoizes (fetch : Int → τ)
    (f : TableLinkField τ) (r : List τ) (hc : f.cache = none)
    (hq : f.queryLinkedRows fetch = .ok r) :
    (f.cachedQueryLinkedRows fetch).1 = .ok r
      ∧ (f.cachedQueryLinkedRows fetch).2.2 = 1
      ∧ (f.cachedQueryLinkedRows fetch).2.1.cache = some r
      ∧ ((f.cachedQueryLinkedRows fetch).2.1.cachedQueryLinkedRows fetch).1
          = .ok r
      ∧ ((f.cachedQueryLinkedRows fetch).2.1.cachedQueryLinkedRows fetch).2.2
          = 0
      ∧ ((f.cachedQueryLinkedRows fetch).2.1.cachedQueryLinkedRows fetch).2.1
          = (f.cachedQueryLinkedRows fetch).2.1
      ∧ ∀ (g : TableLinkField τ) (c : List τ), g.cache = some c →
          g.cachedQueryLinkedRows fetch = (.ok c, g, 0) := by
  have hlast : ∀ (g : TableLinkField τ) (c : List τ), g.cache = some c →
      g.cachedQueryLinkedRows fetch = (.ok c, g, 0) := by
    intro g c hg
    simp [TableLinkField.cachedQueryLinkedRows, hg]
  have h1 : f.cachedQueryLinkedRows fetch
      = (.ok r, { f with cache := some r }, 1) := by
    simp [TableLinkField.cachedQueryLinkedRows, hc, hq]
  have h2 := hlast { f with cache := some r } r rfl
  rw [h1]
  exact ⟨rfl, rfl, rfl, by rw [h2], by rw [h2], by rw [h2], hlast⟩

/-- Witness for C6 at a concrete two-link field and fetch: the first call
returns the fetched rows, the second performs zero fetches. -/
theorem cachedQueryLinkedRows_memoizes_witness :
    (demoLinkField.cachedQueryLinkedRows (fun i => i * 10)).1 = .ok [50, 90]
      ∧ ((demoLinkField.cachedQueryLinkedRows
            (fun i => i * 10)).2.1.cachedQueryLinkedRows
          (fun i => i * 10)).2.2 = 0
      ∧ (demoLinkField.cachedQueryLinkedRows (fun i => i * 10)).2.2 = 1 := by
  have h := cachedQueryLinkedRows_memoizes (fun i => i * 10) demoLinkField
    [50, 90] rfl (by rfl)
  exact ⟨h.1, h.2.2.2.2.1, h.2.1⟩

/-- C7 (code bug): `Table.__req_client` reads `GlobalClient.is_configured`,
but the configuration flag defined by `GlobalClient` is `_is_configured`
(client.py line 858) and neither `GlobalClient` nor `Client` defines an
attribute named `is_configured`; hence whenever no per-model client is bound
the attribute lookup raises `AttributeError` — whatever the value of the
configuration flag — instead of raising `NoClientAvailableError` naming the
table (unconfigured case) or returning the global client (configured case).
With a bound client the lookup is short-circuited away and the bound client
is returned. -/
theorem reqClient_attributeError (b : Bool) (tableName : String) :
    reqClient b true tableName
        = .error (.attributeError "GlobalClient" "is_configured")
      ∧ assocLookup "is_configured" (globalClientClassDict b) = none
      ∧ assocLookup "_is_configured" (globalClientClassDict b)
          = some (.pyBool b)
      ∧ reqClient b false tableName = .ok .boundClient := by
  refine ⟨rfl, rfl, rfl, rfl⟩

/-- C8: `RowLink.serialize` prefers the row id: with the id set it serializes
to the id (even when the text value is also set); with only the text value
set it serializes to that value; with neither set it fails. -/
theorem rowLink_serialize_spec (l : RowLink) :
    (∀ id, l.rowId = some id → l.serialize = .ok (.inl id))
      ∧ (l.rowId = none → ∀ k, l.key = some k → l.serialize = .ok (.inr k))
      ∧ (l.rowId = none → l.key = none →
        l.serialize
          = .error "both fields id and key are unset for this entry") := by
  refine ⟨?_, ?_, ?_⟩
  · intro id h
    simp [RowLink.serialize, h]
  · intro h k hk
    simp [RowLink.serialize, h, hk]
  · intro h hk
    simp [RowLink.serialize, h, hk]

/-- Witness for C8 on the vectors from the spec: id 5 with value "x" gives 5,
value "x" alone gives "x", neither fails. -/
theorem rowLink_serialize_spec_witness :
    (RowLink.mk (some 5) (some "x")).serialize = .ok (.inl 5)
      ∧ (RowLink.mk none (some "x")).serialize = .ok (.inr "x")
      ∧ (RowLink.mk none none).serialize
          = .error "both fields id and key are unset for this entry" :=
  ⟨(rowLink_serialize_spec ⟨some 5, some "x"⟩).1 5 rfl,
   (rowLink_serialize_spec ⟨none, some "x"⟩).2.1 rfl "x" rfl,
   (rowLink_serialize_spec ⟨none, none⟩).2.2 rfl rfl⟩

/-- C9: `SelectEntry.serialize` follows the same id-preferred rule: the
option id when set, otherwise the enumerated value's string, and failure when
neither is present; and the pydantic validators reject constructing a
`SelectEntry` — and likewise a `RowLink` — with neither id nor value set. -/
theorem selectEntry_serialize_spec (enumStr : ε → String) (e : SelectEntry ε) :
    (∀ id, e.entryId = some id → e.serialize enumStr = .ok (.inl id))
      ∧ (e.entryId = none → ∀ v, e.value = some v →
        e.serialize enumStr = .ok (.inr (enumStr v)))
      ∧ (e.entryId = none → e.value = none →
        e.serialize enumStr
          = .error "both fields id and value are unset for this entry")
      ∧ (e.entryId = none → e.value = none →
        e.idOrValueMustBeSet
          = .error "At least one of the entry_id and value fields must be set")
      ∧ ∀ l : RowLink, l.rowId = none → l.key = none →
        l.idOrValueMustBeSet
          = .error "At least one of the row_id and value fields must be set" := by
  refine ⟨?_, ?_, ?_, ?_, ?_⟩
  · intro id h
    simp [SelectEntry.serialize, h]
  · intro h v hv
    simp [SelectEntry.serialize, h, hv]
  · intro h hv
    simp [SelectEntry.serialize, h, hv]
  · intro h hv
    simp [SelectEntry.idOrValueMustBeSet, h, hv]
  · intro l h hk
    simp [RowLink.idOrValueMustBeSet, h, hk]

/-- Witness for C9 with a concrete enum rendered by its value string. -/
theorem selectEntry_serialize_spec_witness :
    (SelectEntry.mk (some 3) (some "Fiction") none).serialize (fun s => s)
        = .ok (.inl 3)
      ∧ (SelectEntry.mk none (some "Fiction") none).serialize (fun s => s)
          = .ok (.inr "Fiction")
      ∧ (SelectEntry.mk (ε := String) none none none).serialize (fun s => s)
          = .error "both fields id and value are unset for this entry"
      ∧ (SelectEntry.mk (ε := String) none none
            none).idOrValueMustBeSet
          = .error "At least one of the entry_id and value fields must be set"
      ∧ (RowLink.mk none none).idOrValueMustBeSet
          = .error "At least one of the row_id and value fields must be set" :=
  ⟨(selectEntry_serialize_spec (fun s => s)
      ⟨some 3, some "Fiction", none⟩).1 3 rfl,
   (selectEntry_serialize_spec (fun s => s)
      ⟨none, some "Fiction", none⟩).2.1 rfl "Fiction" rfl,
   (selectEntry_serialize_spec (fun s => s)
      (⟨none, none, none⟩ : SelectEntry String)).2.2.1 rfl rfl,
   (selectEntry_serialize_spec (fun s => s)
      (⟨none, none, none⟩ : SelectEntry String)).2.2.2.1 rfl rfl,
   (selectEntry_serialize_spec (fun s => s)
      (⟨none, none, none⟩ : SelectEntry String)).2.2.2.2 ⟨none, none⟩ rfl rfl⟩

end Baserowdantic
